import Mathlib

set_option autoImplicit false

/-!
Verification development for the Heat-Flow-Modeling repository.

The embedding below translates the simulation core into Lean:
* the `GridPhysicsEngine` (grid initialization, finite-difference `step`,
  per-sample aggregation `getSampleTemp`),
* an earlier engine snapshot with Peltier (thermostat) clamping,
* the `InterferenceCalculator` (`calculateInterference`, `getInterferenceReport`).

Numeric semantics: all JavaScript numbers are modelled as exact rationals
(`ℚ`); floating-point rounding is out of scope.  Every occurrence of
`Math.sqrt` is handled exactly:
* comparisons `Math.sqrt a <= r` are embedded as the equivalent exact
  condition `0 ≤ r ∧ a ≤ r^2` (see `sqrtLe` and its correctness lemma
  against `Real.sqrt`);
* where the square root's *value* flows into arithmetic
  (`calculateInterference`'s `centerDist`/`distance`, and the distances in
  `getInterferenceReport`), the embedding takes the root as an explicit
  argument (`centerDist`) or as a function argument (`sqrtFn`); theorems
  constrain it by the hypotheses `0 ≤ d` and `d ^ 2 = dx^2 + dy^2` where
  those facts matter.

`PIXELS_PER_INCH` is a constant imported from `const.ts`, a file that is
not part of the provided sources; the embedding therefore takes it as an
explicit parameter `ppi`.  `Math.PI` (used only in the effective-core-density
computation of `initialize`) is likewise taken as a parameter `piVal`,
since the exact real π is not a rational.
-/

/-- Physical material constants (src/client/src/types, src/unnamed/part_011).
Only the fields read by the simulation core are embedded. -/
@[ext] structure Material where
  name : String
  thermal_conductivity : ℚ
  specific_heat : ℚ
  density : ℚ
deriving DecidableEq, Repr

/-- A cylindrical sample (src/unnamed/part_011 plus the extra fields used by
the engine snapshots: layer thicknesses, size class, water mass, Peltier
target). -/
@[ext] structure Sample where
  id : String
  x : ℚ
  y : ℚ
  radius : ℚ
  name : String
  core_material : Material
  middle_material : Material
  outer_material : Material
  core_radius_fraction : ℚ
  middle_radius_fraction : ℚ
  outer_thickness_in : ℚ
  middle_thickness_in : ℚ
  size : String
  water_mass_lbs : ℚ
  initial_temperature : ℚ
  current_temperature : ℚ
  peltier_active : Bool
  target_temperature : Option ℚ
deriving DecidableEq, Repr

/-- The container (src/unnamed/part_011); `shape` is the string
`"circle"` or `"rectangle"`, `fill_type` is e.g. `"Water"`. -/
@[ext] structure Container where
  shape : String
  width : ℚ
  height : ℚ
  fill_material : Material
  fill_type : String
  ambient_temperature : ℚ
  water_temperature : Option ℚ
deriving DecidableEq, Repr

/-- Fahrenheit to Celsius, `f2c` in both engine snapshots. -/
def f2c (f : ℚ) : ℚ := (f - 32) * 5 / 9

/-- Celsius to Fahrenheit, `c2f` in both engine snapshots. -/
def c2f (c : ℚ) : ℚ := c * 9 / 5 + 32

/-- The `'Air'` entry of `MaterialLibrary.getMaterials()`
(src/unnamed/part_004 and part_005 agree on these physical constants). -/
def AirMaterial : Material :=
  { name := "Air", thermal_conductivity := 26/1000, specific_heat := 1005, density := 6/5 }

/-- Placeholder sample used as the default for list indexing
(JavaScript array indexing `samples[i]` is always in bounds where used). -/
def sampleDefault : Sample :=
  { id := "", x := 0, y := 0, radius := 0, name := ""
    core_material := AirMaterial, middle_material := AirMaterial, outer_material := AirMaterial
    core_radius_fraction := 0, middle_radius_fraction := 0
    outer_thickness_in := 0, middle_thickness_in := 0
    size := "", water_mass_lbs := 0
    initial_temperature := 0, current_temperature := 0
    peltier_active := false, target_temperature := none }

/-- Exact embedding of the comparison `Math.sqrt sq <= r` for `0 ≤ sq`:
the square root of `sq` is at most `r` iff `r` is nonnegative and
`sq ≤ r ^ 2`. -/
def sqrtLe (sq r : ℚ) : Bool := decide (0 ≤ r ∧ sq ≤ r ^ 2)

namespace GridPhysicsEngine

/-! The engine of src/unnamed/part_001: 4-pixel downsampling, water fill as
a fixed-temperature boundary, and a sample→cells cache for `getSampleTemp`. -/

/-- The grid-cell constant `PIXEL_SIZE_MM = 4` of part_001. -/
def PIXEL_SIZE_MM : ℚ := 4

/-- The fixed time increment `TIME_STEP = 0.05` seconds. -/
def TIME_STEP : ℚ := 1/20

/-- A grid cell of part_001 (lines 10-15). -/
@[ext] structure GridCell where
  temp : ℚ
  nextTemp : ℚ
  material : Material
  isBoundary : Bool
deriving DecidableEq, Repr

/-- The mutable state of the engine: grid dimensions, the cell array
(total function on coordinates; only indices `y < height`, `x < width`
exist in the source array), and the sample-id → owned-cells cache
(`sampleCells`; absent map keys and empty lists are observationally
identical in the source, both yield the `0` sentinel). Cached coordinate
pairs are `(x, y)`, mirroring the `{x, y}` objects pushed by `initialize`. -/
structure EngineState where
  width : ℕ
  height : ℕ
  grid : ℕ → ℕ → GridCell
  sampleCells : String → List (ℕ × ℕ)

/-- The value written to `cell.nextTemp` by the finite-difference update
(part_001 lines 185-202), reading the four axis neighbors and self. -/
def updatedNext (g : ℕ → ℕ → GridCell) (y x : ℕ) : ℚ :=
  let cell := g y x
  let dx := PIXEL_SIZE_MM / 1000
  let dx2 := dx * dx
  let k := cell.material.thermal_conductivity
  let rho := cell.material.density
  let cp := cell.material.specific_heat
  let alpha := k / (rho * cp)
  let d2T := ((g (y-1) x).temp + (g (y+1) x).temp + (g y (x-1)).temp
      + (g y (x+1)).temp - 4 * cell.temp) / dx2
  cell.temp + alpha * d2T * TIME_STEP

/-- One iteration of the interior update loop at coordinate `c = (y, x)`:
boundary cells are skipped, otherwise only the cell's `nextTemp` is
overwritten (mutation on the evolving grid, as in the source). -/
def phase1At (g : ℕ → ℕ → GridCell) (c : ℕ × ℕ) : ℕ → ℕ → GridCell := fun y x =>
  if (g c.1 c.2).isBoundary then g y x
  else if y = c.1 ∧ x = c.2 then { g c.1 c.2 with nextTemp := updatedNext g c.1 c.2 }
  else g y x

/-- The interior update loop run over an explicit visitation order. -/
def phase1Seq (g : ℕ → ℕ → GridCell) (order : List (ℕ × ℕ)) : ℕ → ℕ → GridCell :=
  order.foldl phase1At g

/-- The row-major visitation order of the source's nested loops
(`y` from 1 to `height - 2`, `x` from 1 to `width - 2`). -/
def interiorCoords (h w : ℕ) : List (ℕ × ℕ) :=
  (List.range' 1 (h - 1 - 1)).flatMap fun y =>
    (List.range' 1 (w - 1 - 1)).map fun x => (y, x)

/-- The apply-updates pass (part_001 lines 207-215): for every cell of the
grid, copy `nextTemp` into `temp`. -/
def phase2 (h w : ℕ) (g : ℕ → ℕ → GridCell) : ℕ → ℕ → GridCell :=
  fun y x => if y < h ∧ x < w then { g y x with temp := (g y x).nextTemp } else g y x

/-- `step()` with the visitation order of the interior loop made explicit. -/
def stepWith (st : EngineState) (order : List (ℕ × ℕ)) : EngineState :=
  { st with grid := phase2 st.height st.width (phase1Seq st.grid order) }

/-- One simulation step (part_001 lines 174-218), visiting interior cells
in the source's row-major order. -/
def step (st : EngineState) : EngineState :=
  stepWith st (interiorCoords st.height st.width)

/-- Specification-side step: every cell's update is computed pointwise from
the single prior-tick snapshot (the spec's "consistent prior-tick snapshot"
reading of the double-buffering discipline), then the copy pass runs. -/
def stepSpec (st : EngineState) : EngineState :=
  { st with
    grid := phase2 st.height st.width fun y x =>
      if (1 ≤ y ∧ y + 1 < st.height ∧ 1 ≤ x ∧ x + 1 < st.width)
          ∧ (st.grid y x).isBoundary = false then
        { st.grid y x with nextTemp := updatedNext st.grid y x }
      else st.grid y x }

/-- `n` consecutive calls to `step()`. -/
def stepN : ℕ → EngineState → EngineState
  | 0, st => st
  | n + 1, st => step (stepN n st)

/-- `getSampleTemp` (part_001 lines 221-230): mean of the cached cells'
current temperatures, converted to Fahrenheit; `0` when no cells are
cached for the id. -/
def getSampleTemp (st : EngineState) (sampleId : String) : ℚ :=
  let cells := st.sampleCells sampleId
  if cells.length = 0 then 0
  else c2f ((cells.foldl (fun sum pos => sum + (st.grid pos.2 pos.1).temp) 0) / cells.length)

/-- The fill temperature `fillTempC` computed by `initialize`
(part_001 lines 43-45): the configured water temperature when the fill is
water and a temperature is set, otherwise ambient. -/
def fillTempC (container : Container) : ℚ :=
  if container.fill_type = "Water" then
    match container.water_temperature with
    | some wt => f2c wt
    | none => f2c container.ambient_temperature
  else f2c container.ambient_temperature

/-- Containment test of a world point in the container
(part_001 lines 100-116); the circle case embeds
`Math.sqrt dist2 <= r` exactly via `sqrtLe`. -/
def insideContainerB (container : Container) (cw ch worldX worldY : ℚ) : Bool :=
  let cx := cw / 2
  let cy := ch / 2
  if container.shape = "circle" then
    sqrtLe ((worldX - cx) ^ 2 + (worldY - cy) ^ 2) (container.width / 2)
  else
    decide (cx - container.width / 2 ≤ worldX ∧ worldX ≤ cx + container.width / 2 ∧
            cy - container.height / 2 ≤ worldY ∧ worldY ≤ cy + container.height / 2)

/-- A sample together with the geometry and effective-density material
precomputed by `initialize` (part_001 lines 48-86, `processedSamples`). -/
structure PSample where
  base : Sample
  outerRadius : ℚ
  middleRadius : ℚ
  coreRadius : ℚ
  coreMat : Material

/-- The per-sample precomputation of `initialize` (part_001 lines 48-86):
layer radii from thicknesses, and a core material whose density is the
configured water mass over the core cylinder volume (`piVal` stands for
`Math.PI`). -/
def processSample (ppi piVal : ℚ) (s : Sample) : PSample :=
  let outerRadius := s.radius
  let middleRadius := outerRadius - s.outer_thickness_in * ppi
  let coreRadius := middleRadius - s.middle_thickness_in * ppi
  let heightIn : ℚ := if s.size = "2x4" then 4 else 8
  let coreRadiusIn := coreRadius / ppi
  let volumeIn3 := piVal * coreRadiusIn ^ 2 * heightIn
  let volumeFt3 := volumeIn3 / 1728
  let volumeM3 := volumeFt3 * (283168/10000000)
  let massKg := s.water_mass_lbs * (453592/1000000)
  let effectiveDensity := massKg / volumeM3
  { base := s
    outerRadius := outerRadius
    middleRadius := middleRadius
    coreRadius := coreRadius
    coreMat := { s.core_material with density := effectiveDensity } }

/-- Classification of one grid coordinate (part_001 lines 88-168): the
produced cell, and the id of the owning sample if the point falls inside
one (used to build the `sampleCells` cache).  All `Math.sqrt` comparisons
are embedded exactly via `sqrtLe`. -/
def cellAt (container : Container) (psamples : List PSample) (cw ch : ℚ)
    (y x : ℕ) : GridCell × Option String :=
  let worldX : ℚ := 4 * x
  let worldY : ℚ := 4 * y
  let ambientC := f2c container.ambient_temperature
  if insideContainerB container cw ch worldX worldY = false then
    ({ temp := ambientC, nextTemp := ambientC, material := AirMaterial, isBoundary := true },
      none)
  else
    match psamples.find? (fun ps =>
        sqrtLe ((worldX - ps.base.x) ^ 2 + (worldY - ps.base.y) ^ 2) ps.outerRadius) with
    | none =>
        ({ temp := fillTempC container, nextTemp := fillTempC container
           material := container.fill_material
           isBoundary := container.fill_type = "Water" }, none)
    | some ps =>
        let distSq := (worldX - ps.base.x) ^ 2 + (worldY - ps.base.y) ^ 2
        let t := f2c ps.base.initial_temperature
        let mat :=
          if sqrtLe distSq ps.coreRadius then ps.coreMat
          else if sqrtLe distSq ps.middleRadius then ps.base.middle_material
          else ps.base.outer_material
        ({ temp := t, nextTemp := t, material := mat, isBoundary := false }, some ps.base.id)

/-- `initialize` (part_001 lines 33-171): downsample the canvas by 4,
classify every cell, and build the sample→cells cache (coordinates are
recorded as `(x, y)` in the row-major visitation order of the loops). -/
def initializeGrid (ppi piVal : ℚ) (container : Container) (samples : List Sample)
    (canvasWidth canvasHeight : ℚ) : EngineState :=
  let w := (Int.ceil (canvasWidth / 4)).toNat
  let h := (Int.ceil (canvasHeight / 4)).toNat
  let psamples := samples.map (processSample ppi piVal)
  { width := w
    height := h
    grid := fun y x => (cellAt container psamples canvasWidth canvasHeight y x).1
    sampleCells := fun sid =>
      ((List.range h).flatMap fun y => (List.range w).map fun x => (y, x)).filterMap
        fun c =>
          if (cellAt container psamples canvasWidth canvasHeight c.1 c.2).2 = some sid then
            some (c.2, c.1)
          else none }

end GridPhysicsEngine

namespace PeltierEngine

/-! The earlier engine snapshot of src/unnamed/part_002 (lines 1-197):
1:1 canvas-to-grid mapping (`PIXEL_SIZE_MM = 2`), cells carry the owning
sample's id, and `step()` clamps the cells of samples with an active
Peltier target before the diffusion update. -/

/-- The grid-cell constant `PIXEL_SIZE_MM = 2` of part_002. -/
def PIXEL_SIZE_MM : ℚ := 2

/-- The fixed time increment `TIME_STEP = 0.05` seconds. -/
def TIME_STEP : ℚ := 1/20

/-- A grid cell of part_002 (lines 9-15), with the owning-sample id. -/
@[ext] structure GridCell where
  temp : ℚ
  nextTemp : ℚ
  material : Material
  isBoundary : Bool
  sampleId : Option String
deriving DecidableEq, Repr

/-- Engine state of part_002: dimensions, cell array, and the retained
sample list consulted by the Peltier logic. -/
structure EngineState where
  width : ℕ
  height : ℕ
  grid : ℕ → ℕ → GridCell
  samples : List Sample

/-- The finite-difference update value (part_002 lines 137-154). -/
def updatedNext (g : ℕ → ℕ → GridCell) (y x : ℕ) : ℚ :=
  let cell := g y x
  let dx := PIXEL_SIZE_MM / 1000
  let dx2 := dx * dx
  let k := cell.material.thermal_conductivity
  let rho := cell.material.density
  let cp := cell.material.specific_heat
  let alpha := k / (rho * cp)
  let d2T := ((g (y-1) x).temp + (g (y+1) x).temp + (g y (x-1)).temp
      + (g y (x+1)).temp - 4 * cell.temp) / dx2
  cell.temp + alpha * d2T * TIME_STEP

/-- The Peltier test of part_002 lines 129-135: if the cell belongs to a
sample that is found in the engine's sample list with `peltier_active` set
and a defined `target_temperature`, the clamped next temperature (in
Celsius) is returned. -/
def peltierClamp (samples : List Sample) (cell : GridCell) : Option ℚ :=
  match cell.sampleId with
  | none => none
  | some sid =>
    match samples.find? (fun s => s.id = sid) with
    | none => none
    | some s =>
      if s.peltier_active then
        match s.target_temperature with
        | some t => some (f2c t)
        | none => none
      else none

/-- One iteration of the interior update loop at `c = (y, x)`: boundary
cells are skipped; clamped cells get the Peltier target as `nextTemp` and
skip the physics update; all other cells get the diffusion update. -/
def phase1At (samples : List Sample) (g : ℕ → ℕ → GridCell) (c : ℕ × ℕ) :
    ℕ → ℕ → GridCell := fun y x =>
  if (g c.1 c.2).isBoundary then g y x
  else
    let newNext :=
      match peltierClamp samples (g c.1 c.2) with
      | some v => v
      | none => updatedNext g c.1 c.2
    if y = c.1 ∧ x = c.2 then { g c.1 c.2 with nextTemp := newNext } else g y x

/-- The interior update loop over an explicit visitation order. -/
def phase1Seq (samples : List Sample) (g : ℕ → ℕ → GridCell)
    (order : List (ℕ × ℕ)) : ℕ → ℕ → GridCell :=
  order.foldl (phase1At samples) g

/-- Row-major interior visitation order of the nested loops. -/
def interiorCoords (h w : ℕ) : List (ℕ × ℕ) :=
  (List.range' 1 (h - 1 - 1)).flatMap fun y =>
    (List.range' 1 (w - 1 - 1)).map fun x => (y, x)

/-- The apply-updates pass (part_002 lines 162-178): copy `nextTemp` into
`temp` for every cell of the grid. -/
def phase2 (h w : ℕ) (g : ℕ → ℕ → GridCell) : ℕ → ℕ → GridCell :=
  fun y x => if y < h ∧ x < w then { g y x with temp := (g y x).nextTemp } else g y x

/-- The in-range coordinates whose cell is owned by sample `sid`, in the
row-major order of the accumulation scan (part_002 lines 162-178). -/
def ownedCoords (h w : ℕ) (g : ℕ → ℕ → GridCell) (sid : String) : List (ℕ × ℕ) :=
  ((List.range h).flatMap fun y => (List.range w).map fun x => (y, x)).filter
    fun c => (g c.1 c.2).sampleId = some sid

/-- The per-sample average update of part_002 lines 180-190: samples that
own at least one cell get `current_temperature` replaced by the mean of
their cells' Fahrenheit temperatures on the post-copy grid. -/
def updateSamples (h w : ℕ) (g : ℕ → ℕ → GridCell) (samples : List Sample) :
    List Sample :=
  samples.map fun s =>
    let owned := ownedCoords h w g s.id
    if owned.length = 0 then s
    else
      { s with current_temperature :=
          (owned.foldl (fun sum c => sum + c2f ((g c.1 c.2).temp)) 0) / owned.length }

/-- One simulation step of part_002 (lines 117-193): Peltier-aware interior
update in row-major order, copy pass, then the sample-average update. -/
def step (st : EngineState) : EngineState :=
  let g2 := phase2 st.height st.width
    (phase1Seq st.samples st.grid (interiorCoords st.height st.width))
  { st with grid := g2, samples := updateSamples st.height st.width g2 st.samples }

/-- `n` consecutive calls to `step()`. -/
def stepN : ℕ → EngineState → EngineState
  | 0, st => st
  | n + 1, st => step (stepN n st)

/-- Classification of one grid coordinate by part_002's `initialize`
(lines 43-113): outside the container is fixed ambient air; inside, the
first sample whose disc contains the point owns the cell and sets the
layer material and the sample's initial temperature. -/
def cellAt (container : Container) (samples : List Sample) (cw ch : ℚ)
    (y x : ℕ) : GridCell :=
  let worldX : ℚ := x
  let worldY : ℚ := y
  let ambientC := f2c container.ambient_temperature
  if GridPhysicsEngine.insideContainerB container cw ch worldX worldY = false then
    { temp := ambientC, nextTemp := ambientC, material := AirMaterial
      isBoundary := true, sampleId := none }
  else
    match samples.find? (fun s =>
        sqrtLe ((worldX - s.x) ^ 2 + (worldY - s.y) ^ 2) s.radius) with
    | none =>
        { temp := ambientC, nextTemp := ambientC, material := container.fill_material
          isBoundary := false, sampleId := none }
    | some s =>
        let distSq := (worldX - s.x) ^ 2 + (worldY - s.y) ^ 2
        let t := f2c s.initial_temperature
        let mat :=
          if sqrtLe distSq (s.radius * s.core_radius_fraction) then s.core_material
          else if sqrtLe distSq (s.radius * s.middle_radius_fraction) then s.middle_material
          else s.outer_material
        { temp := t, nextTemp := t, material := mat, isBoundary := false
          sampleId := some s.id }

/-- `initialize` of part_002 (lines 32-114): 1:1 canvas-to-grid mapping and
retention of the sample list for the Peltier logic. -/
def initializeGrid (container : Container) (samples : List Sample)
    (canvasWidth canvasHeight : ℚ) : EngineState :=
  { width := (Int.ceil canvasWidth).toNat
    height := (Int.ceil canvasHeight).toNat
    grid := fun y x => cellAt container samples canvasWidth canvasHeight y x
    samples := samples }

end PeltierEngine

namespace InterferenceCalculator

/-! The interference scorer of src/unnamed/part_000.  `ppi` stands for the
`PIXELS_PER_INCH` constant, `centerDist` for the value of
`Math.sqrt ((s2.x - s1.x)^2 + (s2.y - s1.y)^2)` (the source computes the
same square root twice, as `centerDist` and as `distance`), and `sqrtFn`
in the report for `Math.sqrt` applied to squared distances. -/

/-- The number of gap sample intervals, `numSamples = 20` of part_000
line 52 (the loop `for (let i = 0; i <= numSamples; i++)` visits
`numSamples + 1` points). -/
def numSamples : ℕ := 20

/-- The nearest-cell temperature lookup `getTempAt` (part_000 lines 37-45):
floor-scaled grid indexing, out-of-bounds reads return the ambient
temperature.  Rows shorter than `gridData[0].length` read the ambient
default (in the source such a read yields `undefined`, whose elevation
comparison is false, observationally the same as ambient). -/
def getTempAt (rows : List (List ℚ)) (ambientTemp canvasWidth canvasHeight : ℚ)
    (x y : ℚ) : ℚ :=
  let gridH := rows.length
  let gridW := (rows.headD []).length
  let gx : ℤ := Int.floor (x / canvasWidth * gridW)
  let gy : ℤ := Int.floor (y / canvasHeight * gridH)
  if 0 ≤ gx ∧ gx < gridW ∧ 0 ≤ gy ∧ gy < gridH then
    (rows.getD gy.toNat []).getD gx.toNat ambientTemp
  else ambientTemp

/-- The `i`-th sampled point along the line from the rim edge of `s1`
toward the rim edge of `s2` (part_000 lines 56-78): with
`rim = radius + 1 * ppi`, the point at parameter
`dist = rim1 + (i / numSamples) * (centerDist - rim1 - rim2)` along the
unit vector from `s1` to `s2`. -/
def pointAt (s1 s2 : Sample) (ppi centerDist : ℚ) (i : ℕ) : ℚ × ℚ :=
  let rim1 := s1.radius + 1 * ppi
  let rim2 := s2.radius + 1 * ppi
  let dxq := s2.x - s1.x
  let dyq := s2.y - s1.y
  let unitX := dxq / centerDist
  let unitY := dyq / centerDist
  let startDist := rim1
  let endDist := centerDist - rim2
  let gapDistance := endDist - startDist
  let t : ℚ := (i : ℚ) / numSamples
  let dist := startDist + t * gapDistance
  (s1.x + unitX * dist, s1.y + unitY * dist)

/-- All points sampled by the gap loop of part_000 lines 74-86
(`i = 0, …, numSamples`, hence `numSamples + 1 = 21` points). -/
def gapSamplePoints (s1 s2 : Sample) (ppi centerDist : ℚ) : List (ℚ × ℚ) :=
  (List.range (numSamples + 1)).map (pointAt s1 s2 ppi centerDist)

/-- The elevation above ambient of the `i`-th sampled gap point. -/
def elevAt (s1 s2 : Sample) (ppi centerDist : ℚ) (rows : List (List ℚ))
    (ambientTemp canvasWidth canvasHeight : ℚ) (i : ℕ) : ℚ :=
  let p := pointAt s1 s2 ppi centerDist i
  getTempAt rows ambientTemp canvasWidth canvasHeight p.1 p.2 - ambientTemp

/-- `calculateInterference` (part_000 lines 7-112), in exact rational
arithmetic, with the value of `Math.sqrt` supplied as `centerDist`.
Returns 0 with no grid data, 100 when the rim circles touch or overlap,
and otherwise combines gap-point coverage and intensity, clamped to
[0, 100]. -/
def calculateInterference (ppi : ℚ) (s1 s2 : Sample) (container : Container)
    (elapsedTime : ℚ) (gridData : Option (List (List ℚ)))
    (canvasWidth canvasHeight centerDist : ℚ) : ℚ :=
  match gridData with
  | none => 0
  | some rows =>
    if rows.length = 0 then 0
    else
      let ambientTemp := container.ambient_temperature
      let threshold : ℚ := 3/2
      let rim1 := s1.radius + 1 * ppi
      let rim2 := s2.radius + 1 * ppi
      let edgeDist := centerDist - rim1 - rim2
      if edgeDist ≤ 0 then 100
      else
        let startDist := rim1
        let endDist := centerDist - rim2
        let gapDistance := endDist - startDist
        if gapDistance ≤ 0 then 100
        else
          let acc := (List.range (numSamples + 1)).foldl
            (fun acc i =>
              let elevation := elevAt s1 s2 ppi centerDist rows ambientTemp
                canvasWidth canvasHeight i
              if threshold < elevation then (acc.1 + elevation, acc.2 + 1) else acc)
            ((0 : ℚ), (0 : ℕ))
          let totalTempElevation := acc.1
          let samplesAboveThreshold := acc.2
          if samplesAboveThreshold = 0 then 0
          else
            let avgElevation := totalTempElevation / samplesAboveThreshold
            let significantTempRise : ℚ := 10
            let coveragePercent := ((samplesAboveThreshold : ℚ) / (numSamples + 1)) * 100
            let intensityPercent := min 100 (avgElevation / significantTempRise * 100)
            let interferencePercentage := coveragePercent * (6/10) + intensityPercent * (4/10)
            min 100 (max 0 interferencePercentage)

/-- JavaScript's `Number.prototype.toFixed(1)` on the nonnegative scores
produced here: round `10 q` to the nearest integer (ties toward the larger
value) and print one decimal digit. -/
def toFixed1 (q : ℚ) : String :=
  let n : ℤ := Int.floor (10 * q + 1/2)
  toString (n / 10) ++ "." ++ toString (n % 10)

/-- One report line, `` `${s1.name} ↔ ${s2.name}: ${score.toFixed(1)}%` ``
(part_000 line 173). -/
def interferenceLine (s1 s2 : Sample) (score : ℚ) : String :=
  s1.name ++ " ↔ " ++ s2.name ++ ": " ++ toFixed1 score ++ "%"

/-- The minimum positive center distance over all sample pairs
(part_000 lines 131-142); `none` models the JavaScript `Infinity` starting
value (no positive-distance pair found). -/
def minDistOpt (sqrtFn : ℚ → ℚ) (samples : List Sample) : Option ℚ :=
  (List.range samples.length).foldl
    (fun acc i =>
      (List.range' (i + 1) (samples.length - (i + 1))).foldl
        (fun acc2 j =>
          let si := samples.getD i sampleDefault
          let sj := samples.getD j sampleDefault
          let dist := sqrtFn ((sj.x - si.x) ^ 2 + (sj.y - si.y) ^ 2)
          if 0 < dist then
            some (match acc2 with | none => dist | some m => min m dist)
          else acc2)
        acc)
    none

/-- The `areNeighbors` helper (part_000 lines 127-150): two samples are
neighbors when their distance is at most 1.5 times the minimum positive
pair distance (always true when that minimum is `Infinity`). -/
def areNeighbors (sqrtFn : ℚ → ℚ) (samples : List Sample) (s1 s2 : Sample) : Bool :=
  let dxa := |s2.x - s1.x|
  let dya := |s2.y - s1.y|
  let distance := sqrtFn (dxa ^ 2 + dya ^ 2)
  match minDistOpt sqrtFn samples with
  | none => true
  | some m => decide (distance ≤ m * (3/2))

/-- The line contributed by the ordered index pair `(i, j)` of the report
loop, if any: skip `i = j`, skip non-neighbors, and report only scores
strictly above the `1.0` threshold (part_000 lines 154-177). -/
def reportEntry (sqrtFn : ℚ → ℚ) (ppi : ℚ) (samples : List Sample)
    (container : Container) (elapsedTime : ℚ) (gridData : Option (List (List ℚ)))
    (canvasWidth canvasHeight : ℚ) (ij : ℕ × ℕ) : Option String :=
  if ij.1 = ij.2 then none
  else
    let si := samples.getD ij.1 sampleDefault
    let sj := samples.getD ij.2 sampleDefault
    if areNeighbors sqrtFn samples si sj = false then none
    else
      let score := calculateInterference ppi si sj container elapsedTime gridData
        canvasWidth canvasHeight (sqrtFn ((sj.x - si.x) ^ 2 + (sj.y - si.y) ^ 2))
      if 1 < score then some (interferenceLine si sj score) else none

/-- Declarative description of the qualifying report lines: one line per
ordered index pair, in the loop's row-major pair order. -/
def qualifyingLines (sqrtFn : ℚ → ℚ) (ppi : ℚ) (samples : List Sample)
    (container : Container) (elapsedTime : ℚ) (gridData : Option (List (List ℚ)))
    (canvasWidth canvasHeight : ℚ) : List String :=
  ((List.range samples.length).flatMap fun i =>
      (List.range samples.length).map fun j => (i, j)).filterMap
    (reportEntry sqrtFn ppi samples container elapsedTime gridData
      canvasWidth canvasHeight)

/-- `getInterferenceReport` (part_000 lines 114-188), with the nested
accumulation loop embedded as written: one line per qualifying ordered
pair, and a single fallback line when nothing qualifies, worded by whether
the simulation has started. -/
def getInterferenceReport (sqrtFn : ℚ → ℚ) (ppi : ℚ) (samples : List Sample)
    (container : Container) (elapsedTime : ℚ) (gridData : Option (List (List ℚ)))
    (canvasWidth canvasHeight : ℚ) : List String :=
  let report := (List.range samples.length).foldl
    (fun rep i =>
      (List.range samples.length).foldl
        (fun rep2 j =>
          rep2 ++ (reportEntry sqrtFn ppi samples container elapsedTime gridData
            canvasWidth canvasHeight (i, j)).toList)
        rep)
    []
  if report.length = 0 then
    if elapsedTime = 0 ∨ gridData = none then
      ["Simulation not started. No thermal interference."]
    else ["No thermal interference detected."]
  else report

/-- The set of gap-sample indices whose elevation exceeds the 1.5 °F halo
threshold (the points counted by the loop of part_000 lines 74-86). -/
def hotFilter (s1 s2 : Sample) (ppi D : ℚ) (rows : List (List ℚ))
    (ambientTemp cw ch : ℚ) : Finset ℕ :=
  (Finset.range (numSamples + 1)).filter
    (fun i => 3/2 < elevAt s1 s2 ppi D rows ambientTemp cw ch i)

/-- The coverage/intensity combination of part_000 lines 88-111, as a
function of the number `k` of points above threshold and their total
elevation `tot`: zero when nothing is above threshold, otherwise
`min 100 (max 0 (0.6 · coverage + 0.4 · intensity))` with
`coverage = 100 · k / (numSamples + 1)` and
`intensity = min 100 (100 · (tot / k) / 10)`. -/
def coverageIntensityScore (k : ℕ) (tot : ℚ) : ℚ :=
  if k = 0 then 0
  else
    min 100 (max 0 ((((k : ℚ) / (numSamples + 1)) * 100) * (6/10) +
      (min 100 (tot / (k : ℚ) / 10 * 100)) * (4/10)))

end InterferenceCalculator

/-! Concrete instances used to witness the theorems below on closed inputs. -/

/-- A plain rectangular container with ambient 70 °F and no water fill. -/
def contPlain : Container :=
  { shape := "rectangle", width := 42, height := 1, fill_material := AirMaterial
    fill_type := "None", ambient_temperature := 70, water_temperature := none }

/-- A sample of radius 5 at the origin. -/
def sTouchA : Sample := { sampleDefault with id := "ta", name := "TA", x := 0, y := 0, radius := 5 }

/-- A second sample at the same center (rims overlapping maximally). -/
def sTouchB : Sample := { sampleDefault with id := "tb", name := "TB", x := 0, y := 0, radius := 5 }

/-- A one-cell grid at ambient temperature. -/
def rows1 : List (List ℚ) := [[(70 : ℚ)]]

/-- Gap-scenario sample at the left end of a 42-pixel canvas. -/
def s1W : Sample := { sampleDefault with id := "a", name := "A", x := 0, y := 1/2, radius := 0 }

/-- Gap-scenario sample at the right end of a 42-pixel canvas. -/
def s2W : Sample := { sampleDefault with id := "b", name := "B", x := 42, y := 1/2, radius := 0 }

/-- A 1 × 42 grid at ambient 70 except for one hot cell (80 °F) at index 41,
which is hit exactly by the last sampled gap point. -/
def rowsW : List (List ℚ) := [(List.replicate 42 (70 : ℚ)).set 41 80]

/-- A tiny 3 × 3 engine state with distinct interior temperatures and no
boundary cells, used to exercise one `step()`. -/
def stW2 : GridPhysicsEngine.EngineState :=
  { width := 3, height := 3
    grid := fun y x =>
      { temp := (y : ℚ) * 7 + x, nextTemp := 0, material := AirMaterial, isBoundary := false }
    sampleCells := fun _ => [] }

/-- The 3 × 3 state `stW2` with its single interior coordinate visited, as a
permuted visitation order for the order-independence witness. -/
def orderW : List (ℕ × ℕ) := [(1, 1)]

/-- A 4 × 4 engine state for the order-independence witness (four interior
cells, visited in a scrambled order by `orderW4`). -/
def stW6 : GridPhysicsEngine.EngineState :=
  { width := 4, height := 4
    grid := fun y x =>
      { temp := (y : ℚ) * 11 + 2 * x, nextTemp := 5, material := AirMaterial
        isBoundary := decide (y = 2 ∧ x = 2) }
    sampleCells := fun _ => [] }

/-- A scrambled permutation of `interiorCoords 4 4 = [(1,1),(1,2),(2,1),(2,2)]`. -/
def orderW4 : List (ℕ × ℕ) := [(2, 2), (1, 1), (2, 1), (1, 2)]

/-- Circular water-filled container for the boundary-invariance witness. -/
def contC3 : Container :=
  { shape := "circle", width := 8, height := 8, fill_material := AirMaterial
    fill_type := "Water", ambient_temperature := 70, water_temperature := some 50 }

/-- The 3 × 3 grid built from `contC3` on a 12 × 12 canvas with no samples:
the corner cells are outside the circle (fixed ambient), the rest are
water-fill boundary cells. -/
def stC3 : GridPhysicsEngine.EngineState :=
  GridPhysicsEngine.initializeGrid 10 3 contC3 [] 12 12

/-- An engine state exercising `getSampleTemp`: sample `"a"` owns two cells
with temperatures 10 °C and 30 °C. -/
def stW8 : GridPhysicsEngine.EngineState :=
  { width := 2, height := 2
    grid := fun y x =>
      { temp := if y = 0 ∧ x = 0 then 10 else 30, nextTemp := 0
        material := AirMaterial, isBoundary := false }
    sampleCells := fun sid => if sid = "a" then [(0, 0), (0, 1)] else [] }

/-- A Peltier-clamped sample centered on the grid corner (0, 0), so that it
owns the perimeter cell (0, 0), which the interior update loop never
visits. -/
def sPcorner : Sample :=
  { sampleDefault with
    id := "s1", x := 0, y := 0, radius := 1/2
    initial_temperature := 32, peltier_active := true, target_temperature := some 212 }

/-- A 3 × 3 rectangular container covering the whole canvas. -/
def contP : Container :=
  { shape := "rectangle", width := 3, height := 3, fill_material := AirMaterial
    fill_type := "None", ambient_temperature := 70, water_temperature := none }

/-- Peltier engine state whose clamped sample owns only the perimeter cell
(0, 0). -/
def stPcorner : PeltierEngine.EngineState := PeltierEngine.initializeGrid contP [sPcorner] 3 3

/-- A Peltier-clamped sample centered on the interior cell (1, 1). -/
def sPmid : Sample :=
  { sampleDefault with
    id := "s2", x := 1, y := 1, radius := 1/2
    initial_temperature := 32, peltier_active := true, target_temperature := some 212 }

/-- Peltier engine state whose clamped sample owns the interior cell (1, 1). -/
def stPmid : PeltierEngine.EngineState := PeltierEngine.initializeGrid contP [sPmid] 3 3

/-- Sample at the origin for the symmetry witness. -/
def sSymA : Sample := { sampleDefault with id := "pa", name := "PA", x := 0, y := 0, radius := 1 }

/-- Sample at (3, 4) — center distance exactly 5 — for the symmetry witness. -/
def sSymB : Sample := { sampleDefault with id := "pb", name := "PB", x := 3, y := 4, radius := 1 }

namespace GridPhysicsEngine

theorem phase1At_eq (g : ℕ → ℕ → GridCell) (c : ℕ × ℕ) (y x : ℕ) :
    phase1At g c y x =
      if (y = c.1 ∧ x = c.2) ∧ (g y x).isBoundary = false then
        { g y x with nextTemp := updatedNext g y x }
      else g y x := by
  obtain ⟨cy, cx⟩ := c
  unfold phase1At
  by_cases hc : y = cy ∧ x = cx
  · obtain ⟨h1, h2⟩ := hc
    subst h1; subst h2
    by_cases hb : (g y x).isBoundary <;> simp [hb]
  · by_cases hb : (g cy cx).isBoundary <;> simp [hb, hc]

theorem phase1At_temp (g : ℕ → ℕ → GridCell) (c : ℕ × ℕ) (y x : ℕ) :
    (phase1At g c y x).temp = (g y x).temp := by
  rw [phase1At_eq]; split <;> rfl

theorem phase1At_isBoundary (g : ℕ → ℕ → GridCell) (c : ℕ × ℕ) (y x : ℕ) :
    (phase1At g c y x).isBoundary = (g y x).isBoundary := by
  rw [phase1At_eq]; split <;> rfl

theorem phase1At_material (g : ℕ → ℕ → GridCell) (c : ℕ × ℕ) (y x : ℕ) :
    (phase1At g c y x).material = (g y x).material := by
  rw [phase1At_eq]; split <;> rfl

theorem updatedNext_congr (g g' : ℕ → ℕ → GridCell)
    (ht : ∀ y x, (g' y x).temp = (g y x).temp)
    (hm : ∀ y x, (g' y x).material = (g y x).material) (y x : ℕ) :
    updatedNext g' y x = updatedNext g y x := by
  unfold updatedNext
  simp only [ht, hm]

theorem phase1Seq_temp (order : List (ℕ × ℕ)) (g : ℕ → ℕ → GridCell) (y x : ℕ) :
    (phase1Seq g order y x).temp = (g y x).temp := by
  induction order generalizing g with
  | nil => rfl
  | cons c rest ih =>
    show (phase1Seq (phase1At g c) rest y x).temp = _
    rw [ih, phase1At_temp]

theorem phase1Seq_isBoundary (order : List (ℕ × ℕ)) (g : ℕ → ℕ → GridCell) (y x : ℕ) :
    (phase1Seq g order y x).isBoundary = (g y x).isBoundary := by
  induction order generalizing g with
  | nil => rfl
  | cons c rest ih =>
    show (phase1Seq (phase1At g c) rest y x).isBoundary = _
    rw [ih, phase1At_isBoundary]

theorem phase1Seq_material (order : List (ℕ × ℕ)) (g : ℕ → ℕ → GridCell) (y x : ℕ) :
    (phase1Seq g order y x).material = (g y x).material := by
  induction order generalizing g with
  | nil => rfl
  | cons c rest ih =>
    show (phase1Seq (phase1At g c) rest y x).material = _
    rw [ih, phase1At_material]

theorem phase1Seq_eq (order : List (ℕ × ℕ)) (g : ℕ → ℕ → GridCell) (y x : ℕ) :
    phase1Seq g order y x =
      if (y, x) ∈ order ∧ (g y x).isBoundary = false then
        { g y x with nextTemp := updatedNext g y x }
      else g y x := by
  induction order generalizing g with
  | nil => simp [phase1Seq]
  | cons c rest ih =>
    obtain ⟨cy, cx⟩ := c
    show phase1Seq (phase1At g (cy, cx)) rest y x = _
    rw [ih]
    have hu : updatedNext (phase1At g (cy, cx)) y x = updatedNext g y x :=
      updatedNext_congr g _ (phase1At_temp g _) (phase1At_material g _) y x
    rw [phase1At_isBoundary, hu, phase1At_eq]
    by_cases h1 : y = cy ∧ x = cx
    · obtain ⟨e1, e2⟩ := h1
      subst e1; subst e2
      by_cases h2 : (g y x).isBoundary = false
      · simp only [and_self, true_and, h2, and_true, List.mem_cons, if_pos, Prod.mk.injEq,
          or_true, true_or]
        split <;> rfl
      · simp [h2]
    · have hne : (y, x) ≠ (cy, cx) := by
        intro hcontra
        exact h1 ⟨congrArg Prod.fst hcontra, congrArg Prod.snd hcontra⟩
      simp [h1, hne, List.mem_cons]

theorem mem_interiorCoords (h w y x : ℕ) :
    (y, x) ∈ interiorCoords h w ↔ (1 ≤ y ∧ y + 1 < h) ∧ (1 ≤ x ∧ x + 1 < w) := by
  simp only [interiorCoords, List.mem_flatMap, List.mem_map, List.mem_range'_1,
    Prod.mk.injEq]
  constructor
  · rintro ⟨a, ⟨ha1, ha2⟩, b, ⟨hb1, hb2⟩, hy, hx⟩
    subst hy; subst hx
    omega
  · rintro ⟨⟨hy1, hy2⟩, hx1, hx2⟩
    exact ⟨y, ⟨hy1, by omega⟩, x, ⟨hx1, by omega⟩, rfl, rfl⟩

theorem phase2_temp_eq_nextTemp (h w : ℕ) (g : ℕ → ℕ → GridCell) (y x : ℕ)
    (hy : y < h) (hx : x < w) :
    (phase2 h w g y x).temp = (phase2 h w g y x).nextTemp := by
  unfold phase2
  rw [if_pos ⟨hy, hx⟩]

theorem stepWith_eq_stepSpec (st : EngineState) (order : List (ℕ × ℕ))
    (hp : order.Perm (interiorCoords st.height st.width)) :
    stepWith st order = stepSpec st := by
  have hA : ∀ y x, phase1Seq st.grid order y x =
      (if (1 ≤ y ∧ y + 1 < st.height ∧ 1 ≤ x ∧ x + 1 < st.width)
          ∧ (st.grid y x).isBoundary = false then
        { st.grid y x with nextTemp := updatedNext st.grid y x }
      else st.grid y x) := by
    intro y x
    rw [phase1Seq_eq]
    simp only [hp.mem_iff, mem_interiorCoords, and_assoc]
  unfold stepWith stepSpec
  congr 1
  funext y x
  show phase2 st.height st.width (phase1Seq st.grid order) y x = _
  unfold phase2
  rw [hA y x]

/-- C2: for every interior cell (`1 ≤ x`, `x + 1 < width`, `1 ≤ y`,
`y + 1 < height`) that is not a boundary cell, one call to `step()` writes
`next = T_self + α · ((T_top + T_bottom + T_left + T_right − 4·T_self) / Δx²) · Δt`
into the write buffer, where `α = k / (ρ·c)` comes from the cell's
`Material`, `Δt = 0.05 s = 1/20` and `Δx = 0.004 m = 4/1000`; afterwards
the copy pass makes every in-range cell's current temperature equal its
write buffer, so the interior cell's new current temperature is exactly
that value. -/
theorem step_interior_update (st : EngineState) (y x : ℕ)
    (hy1 : 1 ≤ y) (hy2 : y + 1 < st.height) (hx1 : 1 ≤ x) (hx2 : x + 1 < st.width)
    (hb : (st.grid y x).isBoundary = false) :
    ((step st).grid y x).temp =
      (st.grid y x).temp +
        (st.grid y x).material.thermal_conductivity /
            ((st.grid y x).material.density * (st.grid y x).material.specific_heat) *
          (((st.grid (y-1) x).temp + (st.grid (y+1) x).temp + (st.grid y (x-1)).temp +
              (st.grid y (x+1)).temp - 4 * (st.grid y x).temp) /
            (4 / 1000 * (4 / 1000))) * (1 / 20)
    ∧ ∀ y' x', y' < st.height → x' < st.width →
        ((step st).grid y' x').temp = ((step st).grid y' x').nextTemp := by
  constructor
  · show (phase2 st.height st.width
      (phase1Seq st.grid (interiorCoords st.height st.width)) y x).temp = _
    unfold phase2
    rw [if_pos ⟨by omega, by omega⟩]
    show (phase1Seq st.grid (interiorCoords st.height st.width) y x).nextTemp = _
    rw [phase1Seq_eq,
      if_pos ⟨(mem_interiorCoords st.height st.width y x).mpr ⟨⟨hy1, hy2⟩, hx1, hx2⟩, hb⟩]
    rfl
  · intro y' x' hy' hx'
    exact phase2_temp_eq_nextTemp st.height st.width _ y' x' hy' hx'

/-- Witness for C2 at the concrete 3 × 3 state `stW2` and its interior
cell (1, 1). -/
theorem step_interior_update_witness :
    ((1:ℕ) ≤ 1 ∧ 1 + 1 < stW2.height ∧ 1 + 1 < stW2.width ∧
      (stW2.grid 1 1).isBoundary = false) ∧
    ((step stW2).grid 1 1).temp =
      (stW2.grid 1 1).temp +
        (stW2.grid 1 1).material.thermal_conductivity /
            ((stW2.grid 1 1).material.density * (stW2.grid 1 1).material.specific_heat) *
          (((stW2.grid 0 1).temp + (stW2.grid 2 1).temp + (stW2.grid 1 0).temp +
              (stW2.grid 1 2).temp - 4 * (stW2.grid 1 1).temp) /
            (4 / 1000 * (4 / 1000))) * (1 / 20) :=
  ⟨⟨le_refl 1, by decide, by decide, by decide⟩,
    (step_interior_update stW2 1 1 (by decide) (by decide) (by decide) (by decide)
      (by decide)).1⟩

/-- C6: the grid state after one `step()` is a pure function of the grid
state before the call — equal to the pointwise `stepSpec` whose Laplacians
read only prior-tick current temperatures — and the result is independent
of the order in which the interior cells are visited (any permutation of
the row-major order yields the same state). -/
theorem step_snapshot_order_independent (st : EngineState) (order : List (ℕ × ℕ))
    (hperm : order.Perm (interiorCoords st.height st.width)) :
    stepWith st order = step st ∧ step st = stepSpec st := by
  have h2 : step st = stepSpec st :=
    stepWith_eq_stepSpec st (interiorCoords st.height st.width) (List.Perm.refl _)
  exact ⟨(stepWith_eq_stepSpec st order hperm).trans h2.symm, h2⟩

/-- Witness for C6: the scrambled visitation order `orderW4` of the 4 × 4
state `stW6` produces the same stepped state as the source's row-major
order. -/
theorem step_snapshot_order_independent_witness :
    orderW4.Perm (interiorCoords stW6.height stW6.width) ∧
    stepWith stW6 orderW4 = step stW6 :=
  ⟨by decide, (step_snapshot_order_independent stW6 orderW4 (by decide)).1⟩

theorem step_width (st : EngineState) : (step st).width = st.width := rfl

theorem step_height (st : EngineState) : (step st).height = st.height := rfl

theorem stepN_width (n : ℕ) (st : EngineState) : (stepN n st).width = st.width := by
  induction n with
  | zero => rfl
  | succ n ih => rw [stepN, step_width, ih]

theorem stepN_height (n : ℕ) (st : EngineState) : (stepN n st).height = st.height := by
  induction n with
  | zero => rfl
  | succ n ih => rw [stepN, step_height, ih]

theorem step_boundary_fixed (st : EngineState) (y x : ℕ)
    (hy : y < st.height) (hx : x < st.width)
    (hb : (st.grid y x).isBoundary = true)
    (hn : (st.grid y x).nextTemp = (st.grid y x).temp) :
    (step st).grid y x = st.grid y x := by
  show phase2 st.height st.width
    (phase1Seq st.grid (interiorCoords st.height st.width)) y x = st.grid y x
  unfold phase2
  rw [if_pos ⟨hy, hx⟩, phase1Seq_eq, if_neg (by simp [hb])]
  exact GridCell.ext hn rfl rfl rfl

theorem stepN_boundary_fixed (n : ℕ) (st : EngineState) (y x : ℕ)
    (hy : y < st.height) (hx : x < st.width)
    (hb : (st.grid y x).isBoundary = true)
    (hn : (st.grid y x).nextTemp = (st.grid y x).temp) :
    (stepN n st).grid y x = st.grid y x := by
  induction n with
  | zero => rfl
  | succ n ih =>
    rw [stepN]
    rw [step_boundary_fixed (stepN n st) y x (by rw [stepN_height]; exact hy)
      (by rw [stepN_width]; exact hx) (by rw [ih]; exact hb) (by rw [ih]; exact hn)]
    exact ih

theorem init_nextTemp_eq_temp (ppi piVal : ℚ) (container : Container)
    (samples : List Sample) (cw ch : ℚ) (y x : ℕ) :
    (((initializeGrid ppi piVal container samples cw ch).grid y x)).nextTemp =
      (((initializeGrid ppi piVal container samples cw ch).grid y x)).temp := by
  show ((cellAt container (samples.map (processSample ppi piVal)) cw ch y x).1).nextTemp =
    ((cellAt container (samples.map (processSample ppi piVal)) cw ch y x).1).temp
  unfold cellAt
  dsimp only
  split
  · rfl
  · split <;> rfl

theorem init_boundary_char (ppi piVal : ℚ) (container : Container)
    (samples : List Sample) (cw ch : ℚ) (y x : ℕ)
    (hb : (((initializeGrid ppi piVal container samples cw ch).grid y x)).isBoundary = true) :
    (insideContainerB container cw ch (4 * x) (4 * y) = false ∧
      (((initializeGrid ppi piVal container samples cw ch).grid y x)).temp =
        f2c container.ambient_temperature)
    ∨ (insideContainerB container cw ch (4 * x) (4 * y) = true ∧
        container.fill_type = "Water" ∧
        (((initializeGrid ppi piVal container samples cw ch).grid y x)).temp =
          fillTempC container) := by
  have hg : (initializeGrid ppi piVal container samples cw ch).grid y x =
      (cellAt container (samples.map (processSample ppi piVal)) cw ch y x).1 := rfl
  rw [hg] at hb ⊢
  unfold cellAt at hb ⊢
  dsimp only at hb ⊢
  by_cases hIn : insideContainerB container cw ch (4 * x) (4 * y) = false
  · rw [if_pos hIn] at hb ⊢
    exact Or.inl ⟨hIn, rfl⟩
  · rw [if_neg hIn] at hb ⊢
    have hIn' : insideContainerB container cw ch (4 * x) (4 * y) = true := by
      revert hIn
      cases insideContainerB container cw ch (4 * x) (4 * y) <;> simp
    rcases hE : List.find?
        (fun ps => sqrtLe ((4 * (x : ℚ) - ps.base.x) ^ 2 + (4 * (y : ℚ) - ps.base.y) ^ 2)
          ps.outerRadius)
        (samples.map (processSample ppi piVal)) with _ | ps
    · rw [hE] at hb ⊢
      refine Or.inr ⟨hIn', ?_, rfl⟩
      exact of_decide_eq_true hb
    · rw [hE] at hb
      exact absurd hb (by simp)

/-- C3: for every grid built by `initializeGrid` and every `n ≥ 0`, a cell
whose boundary flag was set at initialization has the same current
temperature after `n` calls to `step()` as immediately after
initialization; that temperature is the (Celsius-converted) ambient
temperature for outside-container cells and the configured liquid-fill
temperature (`fillTempC`) for inside-container (water-fill) cells — equal
to the configured water temperature whenever one is set. -/
theorem boundary_cells_invariant (ppi piVal : ℚ) (container : Container)
    (samples : List Sample) (cw ch : ℚ) (st : EngineState)
    (hst : st = initializeGrid ppi piVal container samples cw ch)
    (n y x : ℕ) (hy : y < st.height) (hx : x < st.width)
    (hb : (st.grid y x).isBoundary = true) :
    ((stepN n st).grid y x).temp = (st.grid y x).temp
    ∧ ((insideContainerB container cw ch (4 * x) (4 * y) = false ∧
          (st.grid y x).temp = f2c container.ambient_temperature)
        ∨ (insideContainerB container cw ch (4 * x) (4 * y) = true ∧
            container.fill_type = "Water" ∧
            (st.grid y x).temp = fillTempC container))
    ∧ (∀ wt, container.water_temperature = some wt →
        fillTempC container = if container.fill_type = "Water" then f2c wt
          else f2c container.ambient_temperature) := by
  refine ⟨?_, ?_, ?_⟩
  · rw [stepN_boundary_fixed n st y x hy hx hb
      (by rw [hst]; exact init_nextTemp_eq_temp ppi piVal container samples cw ch y x)]
  · subst hst
    exact init_boundary_char ppi piVal container samples cw ch y x hb
  · intro wt hwt
    unfold fillTempC
    rw [hwt]

/-- Witness for C3 at the 3 × 3 water-filled grid `stC3`, its outside
boundary corner (0, 0), after two steps. -/
theorem boundary_cells_invariant_witness :
    ((0:ℕ) < stC3.height ∧ (0:ℕ) < stC3.width ∧ (stC3.grid 0 0).isBoundary = true) ∧
    ((stepN 2 stC3).grid 0 0).temp = (stC3.grid 0 0).temp :=
  ⟨⟨of_decide_eq_true (by with_unfolding_all rfl),
    of_decide_eq_true (by with_unfolding_all rfl),
    of_decide_eq_true (by with_unfolding_all rfl)⟩,
    (boundary_cells_invariant 10 3 contC3 [] 12 12 stC3 rfl 2 0 0
      (of_decide_eq_true (by with_unfolding_all rfl))
      (of_decide_eq_true (by with_unfolding_all rfl))
      (of_decide_eq_true (by with_unfolding_all rfl))).1⟩

/-- C8: `getSampleTemp` returns the arithmetic mean of the current
temperatures over the sample's cached cell list, converted to Fahrenheit,
and returns the sentinel 0 whenever the cache holds no cells for the id
(the case for unknown ids and for samples owning no cells). -/
theorem getSampleTemp_spec (st : EngineState) (sid : String) :
    (st.sampleCells sid = [] → getSampleTemp st sid = 0)
    ∧ (st.sampleCells sid ≠ [] →
        getSampleTemp st sid =
          c2f ((((st.sampleCells sid).map fun p => (st.grid p.2 p.1).temp).sum) /
            ((st.sampleCells sid).length : ℚ))) := by
  constructor
  · intro h
    unfold getSampleTemp
    rw [h]
    rfl
  · intro h
    unfold getSampleTemp
    rw [if_neg (by simpa using h)]
    have hfold : ∀ (l : List (ℕ × ℕ)) (a : ℚ),
        l.foldl (fun sum pos => sum + (st.grid pos.2 pos.1).temp) a =
          a + (l.map fun p => (st.grid p.2 p.1).temp).sum := by
      intro l
      induction l with
      | nil => intro a; simp
      | cons p rest ih => intro a; simp [ih, add_assoc]
    rw [hfold, zero_add]

/-- Witness for C8 at the state `stW8`: the unknown id `"zz"` yields the
sentinel 0, and the two-cell sample `"a"` yields the Fahrenheit mean. -/
theorem getSampleTemp_spec_witness :
    (stW8.sampleCells "zz" = [] ∧ getSampleTemp stW8 "zz" = 0) ∧
    (stW8.sampleCells "a" ≠ [] ∧
      getSampleTemp stW8 "a" =
        c2f ((((stW8.sampleCells "a").map fun p => (stW8.grid p.2 p.1).temp).sum) /
          ((stW8.sampleCells "a").length : ℚ))) :=
  ⟨⟨by decide, (getSampleTemp_spec stW8 "zz").1 (by decide)⟩,
    ⟨by decide, (getSampleTemp_spec stW8 "a").2 (by decide)⟩⟩

end GridPhysicsEngine

namespace PeltierEngine

theorem pe_phase1At_eq (samples : List Sample) (g : ℕ → ℕ → GridCell) (c : ℕ × ℕ) (y x : ℕ) :
    phase1At samples g c y x =
      if (y = c.1 ∧ x = c.2) ∧ (g y x).isBoundary = false then
        { g y x with nextTemp :=
            match peltierClamp samples (g y x) with
            | some v => v
            | none => updatedNext g y x }
      else g y x := by
  obtain ⟨cy, cx⟩ := c
  unfold phase1At
  dsimp only
  by_cases hc : y = cy ∧ x = cx
  · obtain ⟨h1, h2⟩ := hc
    subst h1; subst h2
    by_cases hb : (g y x).isBoundary <;> simp [hb]
  · by_cases hb : (g cy cx).isBoundary <;> simp [hb, hc]

theorem pe_phase1At_temp (samples : List Sample) (g : ℕ → ℕ → GridCell) (c : ℕ × ℕ) (y x : ℕ) :
    (phase1At samples g c y x).temp = (g y x).temp := by
  rw [pe_phase1At_eq]; split <;> rfl

theorem pe_phase1At_isBoundary (samples : List Sample) (g : ℕ → ℕ → GridCell) (c : ℕ × ℕ)
    (y x : ℕ) : (phase1At samples g c y x).isBoundary = (g y x).isBoundary := by
  rw [pe_phase1At_eq]; split <;> rfl

theorem pe_phase1At_material (samples : List Sample) (g : ℕ → ℕ → GridCell) (c : ℕ × ℕ)
    (y x : ℕ) : (phase1At samples g c y x).material = (g y x).material := by
  rw [pe_phase1At_eq]; split <;> rfl

theorem phase1At_sampleId (samples : List Sample) (g : ℕ → ℕ → GridCell) (c : ℕ × ℕ)
    (y x : ℕ) : (phase1At samples g c y x).sampleId = (g y x).sampleId := by
  rw [pe_phase1At_eq]; split <;> rfl

theorem pe_updatedNext_congr (g g' : ℕ → ℕ → GridCell)
    (ht : ∀ y x, (g' y x).temp = (g y x).temp)
    (hm : ∀ y x, (g' y x).material = (g y x).material) (y x : ℕ) :
    updatedNext g' y x = updatedNext g y x := by
  unfold updatedNext
  simp only [ht, hm]

theorem peltierClamp_congr (samples : List Sample) (cell cell' : GridCell)
    (hs : cell'.sampleId = cell.sampleId) :
    peltierClamp samples cell' = peltierClamp samples cell := by
  unfold peltierClamp
  rw [hs]

theorem pe_phase1Seq_temp (order : List (ℕ × ℕ)) (samples : List Sample)
    (g : ℕ → ℕ → GridCell) (y x : ℕ) :
    (phase1Seq samples g order y x).temp = (g y x).temp := by
  induction order generalizing g with
  | nil => rfl
  | cons c rest ih =>
    show (phase1Seq samples (phase1At samples g c) rest y x).temp = _
    rw [ih, pe_phase1At_temp]

theorem pe_phase1Seq_isBoundary (order : List (ℕ × ℕ)) (samples : List Sample)
    (g : ℕ → ℕ → GridCell) (y x : ℕ) :
    (phase1Seq samples g order y x).isBoundary = (g y x).isBoundary := by
  induction order generalizing g with
  | nil => rfl
  | cons c rest ih =>
    show (phase1Seq samples (phase1At samples g c) rest y x).isBoundary = _
    rw [ih, pe_phase1At_isBoundary]

theorem pe_phase1Seq_material (order : List (ℕ × ℕ)) (samples : List Sample)
    (g : ℕ → ℕ → GridCell) (y x : ℕ) :
    (phase1Seq samples g order y x).material = (g y x).material := by
  induction order generalizing g with
  | nil => rfl
  | cons c rest ih =>
    show (phase1Seq samples (phase1At samples g c) rest y x).material = _
    rw [ih, pe_phase1At_material]

theorem phase1Seq_sampleId (order : List (ℕ × ℕ)) (samples : List Sample)
    (g : ℕ → ℕ → GridCell) (y x : ℕ) :
    (phase1Seq samples g order y x).sampleId = (g y x).sampleId := by
  induction order generalizing g with
  | nil => rfl
  | cons c rest ih =>
    show (phase1Seq samples (phase1At samples g c) rest y x).sampleId = _
    rw [ih, phase1At_sampleId]

theorem pe_phase1Seq_eq (order : List (ℕ × ℕ)) (samples : List Sample)
    (g : ℕ → ℕ → GridCell) (y x : ℕ) :
    phase1Seq samples g order y x =
      if (y, x) ∈ order ∧ (g y x).isBoundary = false then
        { g y x with nextTemp :=
            match peltierClamp samples (g y x) with
            | some v => v
            | none => updatedNext g y x }
      else g y x := by
  induction order generalizing g with
  | nil => simp [phase1Seq]
  | cons c rest ih =>
    obtain ⟨cy, cx⟩ := c
    show phase1Seq samples (phase1At samples g (cy, cx)) rest y x = _
    rw [ih]
    have hu : updatedNext (phase1At samples g (cy, cx)) y x = updatedNext g y x :=
      pe_updatedNext_congr g _ (pe_phase1At_temp samples g _) (pe_phase1At_material samples g _) y x
    have hcl : peltierClamp samples (phase1At samples g (cy, cx) y x) =
        peltierClamp samples (g y x) :=
      peltierClamp_congr samples _ _ (phase1At_sampleId samples g _ y x)
    rw [pe_phase1At_isBoundary, hu, hcl, pe_phase1At_eq]
    by_cases h1 : y = cy ∧ x = cx
    · obtain ⟨e1, e2⟩ := h1
      subst e1; subst e2
      by_cases h2 : (g y x).isBoundary = false
      · simp only [and_self, true_and, h2, and_true, List.mem_cons, if_pos, Prod.mk.injEq,
          or_true, true_or]
        split <;> rfl
      · simp [h2]
    · have hne : (y, x) ≠ (cy, cx) := by
        intro hcontra
        exact h1 ⟨congrArg Prod.fst hcontra, congrArg Prod.snd hcontra⟩
      simp [h1, hne, List.mem_cons]

theorem interiorCoords_eq : interiorCoords = GridPhysicsEngine.interiorCoords := rfl

theorem pe_mem_interiorCoords (h w y x : ℕ) :
    (y, x) ∈ interiorCoords h w ↔ (1 ≤ y ∧ y + 1 < h) ∧ (1 ≤ x ∧ x + 1 < w) := by
  rw [interiorCoords_eq]
  exact GridPhysicsEngine.mem_interiorCoords h w y x

theorem pe_step_width (st : EngineState) : (step st).width = st.width := rfl

theorem pe_step_height (st : EngineState) : (step st).height = st.height := rfl

theorem step_sampleId (st : EngineState) (y x : ℕ) :
    ((step st).grid y x).sampleId = (st.grid y x).sampleId := by
  show (phase2 st.height st.width
    (phase1Seq st.samples st.grid (interiorCoords st.height st.width)) y x).sampleId = _
  unfold phase2
  split
  · exact phase1Seq_sampleId _ _ _ y x
  · exact phase1Seq_sampleId _ _ _ y x

theorem step_isBoundary (st : EngineState) (y x : ℕ) :
    ((step st).grid y x).isBoundary = (st.grid y x).isBoundary := by
  show (phase2 st.height st.width
    (phase1Seq st.samples st.grid (interiorCoords st.height st.width)) y x).isBoundary = _
  unfold phase2
  split
  · exact pe_phase1Seq_isBoundary _ _ _ y x
  · exact pe_phase1Seq_isBoundary _ _ _ y x

theorem find?_map_id_preserving (l : List Sample) (F : Sample → Sample)
    (hid : ∀ a, (F a).id = a.id) (sid : String) (s : Sample)
    (hfind : l.find? (fun a => a.id = sid) = some s) :
    (l.map F).find? (fun a => a.id = sid) = some (F s) := by
  rw [List.find?_map]
  have hp : ((fun a => decide (a.id = sid)) ∘ F) = fun a => decide (a.id = sid) := by
    funext a
    simp [Function.comp, hid]
  rw [hp, hfind]
  rfl

theorem updateSamples_find? (h w : ℕ) (g : ℕ → ℕ → GridCell) (samples : List Sample)
    (sid : String) (s : Sample)
    (hfind : samples.find? (fun a => a.id = sid) = some s) :
    ∃ s', (updateSamples h w g samples).find? (fun a => a.id = sid) = some s'
      ∧ s'.peltier_active = s.peltier_active
      ∧ s'.target_temperature = s.target_temperature := by
  have key := find?_map_id_preserving samples
    (fun a =>
      let owned := ownedCoords h w g a.id
      if owned.length = 0 then a
      else { a with current_temperature :=
          (owned.foldl (fun sum c => sum + c2f ((g c.1 c.2).temp)) 0) / owned.length })
    (by intro a; dsimp only; split <;> rfl) sid s hfind
  exact ⟨_, key, by dsimp only; split <;> rfl, by dsimp only; split <;> rfl⟩

theorem step_find? (st : EngineState) (sid : String) (s : Sample)
    (hfind : st.samples.find? (fun a => a.id = sid) = some s) :
    ∃ s', (step st).samples.find? (fun a => a.id = sid) = some s'
      ∧ s'.peltier_active = s.peltier_active
      ∧ s'.target_temperature = s.target_temperature :=
  updateSamples_find? st.height st.width _ st.samples sid s hfind

theorem step_clamped (st : EngineState) (y x : ℕ) (sid : String) (s : Sample) (t : ℚ)
    (hy1 : 1 ≤ y) (hy2 : y + 1 < st.height) (hx1 : 1 ≤ x) (hx2 : x + 1 < st.width)
    (hb : (st.grid y x).isBoundary = false)
    (hsid : (st.grid y x).sampleId = some sid)
    (hfind : st.samples.find? (fun a => a.id = sid) = some s)
    (hact : s.peltier_active = true)
    (htgt : s.target_temperature = some t) :
    ((step st).grid y x).temp = f2c t := by
  show (phase2 st.height st.width
    (phase1Seq st.samples st.grid (interiorCoords st.height st.width)) y x).temp = _
  unfold phase2
  rw [if_pos ⟨by omega, by omega⟩]
  show (phase1Seq st.samples st.grid (interiorCoords st.height st.width) y x).nextTemp = _
  rw [pe_phase1Seq_eq,
    if_pos ⟨(pe_mem_interiorCoords st.height st.width y x).mpr ⟨⟨hy1, hy2⟩, hx1, hx2⟩, hb⟩]
  show (match peltierClamp st.samples (st.grid y x) with
    | some v => v
    | none => updatedNext st.grid y x) = f2c t
  unfold peltierClamp
  rw [hsid]
  dsimp only
  rw [hfind]
  dsimp only
  rw [hact, htgt]
  rfl

theorem pe_stepN_width (n : ℕ) (st : EngineState) : (stepN n st).width = st.width := by
  induction n with
  | zero => rfl
  | succ n ih => rw [stepN, pe_step_width, ih]

theorem pe_stepN_height (n : ℕ) (st : EngineState) : (stepN n st).height = st.height := by
  induction n with
  | zero => rfl
  | succ n ih => rw [stepN, pe_step_height, ih]

theorem stepN_sampleId (n : ℕ) (st : EngineState) (y x : ℕ) :
    ((stepN n st).grid y x).sampleId = (st.grid y x).sampleId := by
  induction n with
  | zero => rfl
  | succ n ih => rw [stepN, step_sampleId, ih]

theorem stepN_isBoundary (n : ℕ) (st : EngineState) (y x : ℕ) :
    ((stepN n st).grid y x).isBoundary = (st.grid y x).isBoundary := by
  induction n with
  | zero => rfl
  | succ n ih => rw [stepN, step_isBoundary, ih]

theorem stepN_find? (n : ℕ) (st : EngineState) (sid : String) (s : Sample)
    (hfind : st.samples.find? (fun a => a.id = sid) = some s) :
    ∃ s', (stepN n st).samples.find? (fun a => a.id = sid) = some s'
      ∧ s'.peltier_active = s.peltier_active
      ∧ s'.target_temperature = s.target_temperature := by
  induction n with
  | zero => exact ⟨s, hfind, rfl, rfl⟩
  | succ n ih =>
    obtain ⟨s', hf', ha', ht'⟩ := ih
    obtain ⟨s'', hf'', ha'', ht''⟩ := step_find? (stepN n st) sid s' hf'
    exact ⟨s'', hf'', ha''.trans ha', ht''.trans ht'⟩

/-- Corrected form of C4: if a sample has its `peltier_active` flag set and
a defined `target_temperature`, then after `n ≥ 1` calls to `step()` every
interior (`1 ≤ x`, `x + 1 < width`, `1 ≤ y`, `y + 1 < height`),
non-boundary cell owned by that sample has temperature `f2c target`,
reading back as the target in Fahrenheit; the clamp is applied before the
diffusion update, so a clamped cell never receives a diffusion
contribution.  (Perimeter cells owned by the sample are excluded: the
interior loop never visits them, and after zero steps temperatures are
still the initialization values.) -/
theorem peltier_clamp_interior (st : EngineState) (sid : String) (s : Sample) (t : ℚ)
    (y x n : ℕ)
    (hfind : st.samples.find? (fun a => a.id = sid) = some s)
    (hact : s.peltier_active = true)
    (htgt : s.target_temperature = some t)
    (hy1 : 1 ≤ y) (hy2 : y + 1 < st.height) (hx1 : 1 ≤ x) (hx2 : x + 1 < st.width)
    (hsid : (st.grid y x).sampleId = some sid)
    (hb : (st.grid y x).isBoundary = false)
    (hn : 1 ≤ n) :
    ((stepN n st).grid y x).temp = f2c t
    ∧ c2f (((stepN n st).grid y x).temp) = t := by
  obtain ⟨m, rfl⟩ : ∃ m, n = m + 1 := ⟨n - 1, by omega⟩
  obtain ⟨s', hf', ha', ht'⟩ := stepN_find? m st sid s hfind
  have htemp : ((step (stepN m st)).grid y x).temp = f2c t := by
    refine step_clamped (stepN m st) y x sid s' t hy1 ?_ hx1 ?_ ?_ ?_ hf' ?_ ?_
    · rw [pe_stepN_height]; exact hy2
    · rw [pe_stepN_width]; exact hx2
    · rw [stepN_isBoundary]; exact hb
    · rw [stepN_sampleId]; exact hsid
    · rw [ha', hact]
    · rw [ht', htgt]
  refine ⟨htemp, ?_⟩
  rw [show stepN (m + 1) st = step (stepN m st) from rfl, htemp]
  unfold c2f f2c
  ring

set_option maxRecDepth 100000 in
/-- Witness for the corrected C4: in `stPmid`, the clamped sample `"s2"`
owns the interior cell (1, 1); after two steps it reads back 212 °F. -/
theorem peltier_clamp_interior_witness :
    (stPmid.samples.find? (fun a => a.id = "s2") = some sPmid ∧
      sPmid.peltier_active = true ∧ sPmid.target_temperature = some 212 ∧
      (stPmid.grid 1 1).sampleId = some "s2" ∧ (stPmid.grid 1 1).isBoundary = false ∧
      1 + 1 < stPmid.height ∧ 1 + 1 < stPmid.width) ∧
    c2f (((stepN 2 stPmid).grid 1 1).temp) = 212 :=
  ⟨⟨of_decide_eq_true (by with_unfolding_all rfl), rfl, rfl,
    of_decide_eq_true (by with_unfolding_all rfl),
    of_decide_eq_true (by with_unfolding_all rfl),
    of_decide_eq_true (by with_unfolding_all rfl),
    of_decide_eq_true (by with_unfolding_all rfl)⟩,
    (peltier_clamp_interior stPmid "s2" sPmid 212 1 1 2
      (of_decide_eq_true (by with_unfolding_all rfl)) rfl rfl
      (by omega) (of_decide_eq_true (by with_unfolding_all rfl))
      (by omega) (of_decide_eq_true (by with_unfolding_all rfl))
      (of_decide_eq_true (by with_unfolding_all rfl))
      (of_decide_eq_true (by with_unfolding_all rfl))
      (by omega)).2⟩

set_option maxRecDepth 100000 in
/-- Counterexample to C4 as stated: in `stPcorner` the clamped sample
`"s1"` owns the perimeter cell (0, 0), which the interior update loop
never visits; after one `step()` that cell still reads 32 °F, not the
212 °F target. -/
theorem peltier_clamp_cex :
    ((stepN 1 stPcorner).grid 0 0).sampleId = some "s1" ∧
    sPcorner.peltier_active = true ∧ sPcorner.target_temperature = some 212 ∧
    c2f (((stepN 1 stPcorner).grid 0 0).temp) = 32 ∧ (32 : ℚ) ≠ 212 :=
  ⟨of_decide_eq_true (by with_unfolding_all rfl), rfl, rfl,
    of_decide_eq_true (by with_unfolding_all rfl),
    of_decide_eq_true (by with_unfolding_all rfl)⟩

end PeltierEngine

namespace InterferenceCalculator

theorem calc_touching_100 (ppi : ℚ) (s1 s2 : Sample) (container : Container) (et : ℚ)
    (rows : List (List ℚ)) (cw ch D : ℚ) (hrows : rows ≠ [])
    (hedge : D - (s1.radius + 1 * ppi) - (s2.radius + 1 * ppi) ≤ 0) :
    calculateInterference ppi s1 s2 container et (some rows) cw ch D = 100 := by
  unfold calculateInterference
  dsimp only
  rw [if_neg (by simpa using hrows), if_pos hedge]

/-- C7: `calculateInterference` always returns a value in the closed
interval [0, 100], for every combination of samples, container, grid data
(including `none`), canvas dimensions and center distance. -/
theorem calculateInterference_bounds (ppi : ℚ) (s1 s2 : Sample) (container : Container)
    (elapsedTime : ℚ) (gridData : Option (List (List ℚ))) (cw ch D : ℚ) :
    0 ≤ calculateInterference ppi s1 s2 container elapsedTime gridData cw ch D ∧
    calculateInterference ppi s1 s2 container elapsedTime gridData cw ch D ≤ 100 := by
  unfold calculateInterference
  cases gridData with
  | none => norm_num
  | some rows =>
    dsimp only
    split
    · norm_num
    split
    · norm_num
    split
    · norm_num
    split
    · norm_num
    refine ⟨le_min (by norm_num) (le_max_left 0 _), min_le_left _ _⟩

/-- Counterexample to C1 as stated: rims touching (edge distance ≤ 0) but a
null grid — `calculateInterference` returns 0, not 100, because the
null-grid guard precedes the touching check. -/
theorem calculateInterference_nogrid_cex :
    (0 : ℚ) - (sTouchA.radius + 1 * 1) - (sTouchB.radius + 1 * 1) ≤ 0 ∧
    calculateInterference 1 sTouchA sTouchB contPlain 0 none 10 10 0 = 0 ∧
    (0 : ℚ) ≠ 100 :=
  ⟨of_decide_eq_true (by with_unfolding_all rfl), rfl,
    of_decide_eq_true (by with_unfolding_all rfl)⟩

/-- Corrected form of C1: whenever the grid data is present and nonempty,
any two samples whose rim circles (outer radius plus the 1-inch buffer)
touch or overlap (`centerDist - rim1 - rim2 ≤ 0`) score exactly 100,
independent of the grid contents; with a null or empty grid the function
instead returns 0 (see the counterexample). -/
theorem calculateInterference_touching (ppi : ℚ) (s1 s2 : Sample) (container : Container)
    (et : ℚ) (rows : List (List ℚ)) (cw ch D : ℚ) (hrows : rows ≠ [])
    (hedge : D - (s1.radius + 1 * ppi) - (s2.radius + 1 * ppi) ≤ 0) :
    calculateInterference ppi s1 s2 container et (some rows) cw ch D = 100 :=
  calc_touching_100 ppi s1 s2 container et rows cw ch D hrows hedge

/-- Witness for the corrected C1 at overlapping samples and a one-cell
grid. -/
theorem calculateInterference_touching_witness :
    rows1 ≠ [] ∧ (0 : ℚ) - (sTouchA.radius + 1 * 1) - (sTouchB.radius + 1 * 1) ≤ 0 ∧
    calculateInterference 1 sTouchA sTouchB contPlain 0 (some rows1) 10 10 0 = 100 :=
  ⟨by decide, of_decide_eq_true (by with_unfolding_all rfl),
    calculateInterference_touching 1 sTouchA sTouchB contPlain 0 rows1 10 10 0 (by decide)
      (of_decide_eq_true (by with_unfolding_all rfl))⟩

theorem loopAcc_char_aux (thr : ℚ) (f : ℕ → ℚ) (n : ℕ) (a : ℚ) (b : ℕ) :
    (List.range n).foldl
      (fun acc i => if thr < f i then (acc.1 + f i, acc.2 + 1) else acc) (a, b) =
    (a + ∑ i in (Finset.range n).filter (fun i => thr < f i), f i,
     b + ((Finset.range n).filter (fun i => thr < f i)).card) := by
  induction n with
  | zero => simp
  | succ n ih =>
    rw [List.range_succ, List.foldl_append, ih]
    dsimp only [List.foldl]
    rw [Finset.range_succ, Finset.filter_insert]
    by_cases h : thr < f n
    · rw [if_pos h, if_pos h, Finset.sum_insert (by simp), Finset.card_insert_of_not_mem (by simp)]
      refine Prod.ext ?_ ?_
      · dsimp only
        ring
      · dsimp only
        omega
    · rw [if_neg h, if_neg h]

theorem loopAcc_char (thr : ℚ) (f : ℕ → ℚ) (n : ℕ) :
    (List.range n).foldl
      (fun acc i => if thr < f i then (acc.1 + f i, acc.2 + 1) else acc) ((0 : ℚ), (0 : ℕ)) =
    (∑ i in (Finset.range n).filter (fun i => thr < f i), f i,
     ((Finset.range n).filter (fun i => thr < f i)).card) := by
  rw [loopAcc_char_aux, zero_add]
  simp

theorem calc_char (ppi : ℚ) (s1 s2 : Sample) (container : Container) (et : ℚ)
    (rows : List (List ℚ)) (cw ch D : ℚ) (hrows : rows ≠ [])
    (hedge : 0 < D - (s1.radius + 1 * ppi) - (s2.radius + 1 * ppi)) :
    calculateInterference ppi s1 s2 container et (some rows) cw ch D =
      coverageIntensityScore
        (hotFilter s1 s2 ppi D rows container.ambient_temperature cw ch).card
        (∑ i in hotFilter s1 s2 ppi D rows container.ambient_temperature cw ch,
          elevAt s1 s2 ppi D rows container.ambient_temperature cw ch i) := by
  unfold calculateInterference coverageIntensityScore hotFilter
  dsimp only
  rw [if_neg (by simpa using hrows), if_neg (not_le.mpr hedge),
    if_neg (not_le.mpr (by linarith))]
  rw [loopAcc_char (3/2)
    (fun i => elevAt s1 s2 ppi D rows container.ambient_temperature cw ch i)
    (numSamples + 1)]

/-- Counterexample to C5 as stated: the gap loop samples 21 points, not
20 — at a concrete configuration the sampled-point list has length 21, and
the returned score 300/7 carries the 21 denominator (one hot point out of
21 gives coverage 100/21, so the score is 0.6·100/21 + 0.4·100 = 300/7). -/
theorem gap_sampling_cex :
    (gapSamplePoints s1W s2W 1 42).length = 21 ∧ (21 : ℕ) ≠ 20 ∧
    calculateInterference 1 s1W s2W contPlain 5 (some rowsW) 42 1 42 = 300 / 7 :=
  ⟨by simp [gapSamplePoints, numSamples], by decide,
    by with_unfolding_all rfl⟩

/-- Corrected form of C5: when the rims do not touch, the scorer samples
exactly `numSamples + 1 = 21` evenly spaced points (consecutive points
differ by the constant vector `unit · (gapDistance / 20)`) along the
segment connecting the two rim edges, and the score combines
`coveragePercent = 100 · k / 21` (where `k` counts sampled points whose
elevation above ambient exceeds the 1.5 °F threshold) with the intensity
term, as described by `coverageIntensityScore`. -/
theorem gap_sampling_spec (ppi : ℚ) (s1 s2 : Sample) (container : Container) (et : ℚ)
    (rows : List (List ℚ)) (cw ch D : ℚ) (hrows : rows ≠ [])
    (hedge : 0 < D - (s1.radius + 1 * ppi) - (s2.radius + 1 * ppi)) :
    (gapSamplePoints s1 s2 ppi D).length = numSamples + 1 ∧ numSamples + 1 = 21 ∧
    (∀ i : ℕ, i < numSamples →
      (pointAt s1 s2 ppi D (i + 1)).1 - (pointAt s1 s2 ppi D i).1 =
        (s2.x - s1.x) / D *
          ((D - (s1.radius + 1 * ppi) - (s2.radius + 1 * ppi)) / numSamples) ∧
      (pointAt s1 s2 ppi D (i + 1)).2 - (pointAt s1 s2 ppi D i).2 =
        (s2.y - s1.y) / D *
          ((D - (s1.radius + 1 * ppi) - (s2.radius + 1 * ppi)) / numSamples)) ∧
    calculateInterference ppi s1 s2 container et (some rows) cw ch D =
      coverageIntensityScore
        (hotFilter s1 s2 ppi D rows container.ambient_temperature cw ch).card
        (∑ i in hotFilter s1 s2 ppi D rows container.ambient_temperature cw ch,
          elevAt s1 s2 ppi D rows container.ambient_temperature cw ch i) := by
  refine ⟨by simp [gapSamplePoints], rfl, ?_,
    calc_char ppi s1 s2 container et rows cw ch D hrows hedge⟩
  intro i hi
  unfold pointAt numSamples
  dsimp only
  constructor
  · push_cast
    ring
  · push_cast
    ring

/-- Witness for the corrected C5 at the hot-endpoint scenario: samples 42
pixels apart on a 1 × 42 grid whose last gap point is 10 °F above
ambient. -/
theorem gap_sampling_spec_witness :
    (rowsW ≠ [] ∧ 0 < (42 : ℚ) - (s1W.radius + 1 * 1) - (s2W.radius + 1 * 1)) ∧
    calculateInterference 1 s1W s2W contPlain 5 (some rowsW) 42 1 42 =
      coverageIntensityScore
        (hotFilter s1W s2W 1 42 rowsW contPlain.ambient_temperature 42 1).card
        (∑ i in hotFilter s1W s2W 1 42 rowsW contPlain.ambient_temperature 42 1,
          elevAt s1W s2W 1 42 rowsW contPlain.ambient_temperature 42 1 i) :=
  ⟨⟨by decide, of_decide_eq_true (by with_unfolding_all rfl)⟩,
    (gap_sampling_spec 1 s1W s2W contPlain 5 rowsW 42 1 42 (by decide)
      (of_decide_eq_true (by with_unfolding_all rfl))).2.2.2⟩

theorem pointAt_symm (s1 s2 : Sample) (ppi D : ℚ) (hD : D ≠ 0) (i : ℕ)
    (hi : i ≤ numSamples) :
    pointAt s2 s1 ppi D i = pointAt s1 s2 ppi D (numSamples - i) := by
  unfold numSamples at hi
  unfold pointAt numSamples
  dsimp only
  have hcast : ((20 - i : ℕ) : ℚ) = 20 - (i : ℚ) := by
    push_cast [Nat.cast_sub hi]
    ring
  rw [hcast]
  refine Prod.ext ?_ ?_
  · dsimp only
    field_simp
    ring
  · dsimp only
    field_simp
    ring

theorem elevAt_symm (s1 s2 : Sample) (ppi D : ℚ) (rows : List (List ℚ))
    (amb cw ch : ℚ)
    (hD2 : D ^ 2 = (s2.x - s1.x) ^ 2 + (s2.y - s1.y) ^ 2) (i : ℕ)
    (hi : i ≤ numSamples) :
    elevAt s2 s1 ppi D rows amb cw ch i = elevAt s1 s2 ppi D rows amb cw ch (numSamples - i) := by
  by_cases hD : D = 0
  · subst hD
    have h0 : (s2.x - s1.x) ^ 2 + (s2.y - s1.y) ^ 2 = 0 := by rw [← hD2]; ring
    have hx : s2.x = s1.x := by nlinarith [sq_nonneg (s2.x - s1.x), sq_nonneg (s2.y - s1.y)]
    have hy : s2.y = s1.y := by nlinarith [sq_nonneg (s2.x - s1.x), sq_nonneg (s2.y - s1.y)]
    unfold elevAt pointAt
    dsimp only
    rw [hx, hy]
    simp [sub_self, zero_div, zero_mul, add_zero]
  · unfold elevAt
    rw [pointAt_symm s1 s2 ppi D hD i hi]

theorem reflect_filter_sum (f g : ℕ → ℚ) (n : ℕ)
    (h : ∀ i, i ≤ n → f i = g (n - i)) :
    (∑ i in (Finset.range (n + 1)).filter (fun i => 3/2 < f i), f i) =
      ∑ i in (Finset.range (n + 1)).filter (fun i => 3/2 < g i), g i := by
  rw [Finset.sum_filter, Finset.sum_filter]
  have hc : (∑ i in Finset.range (n + 1), if 3/2 < f i then f i else 0) =
      ∑ i in Finset.range (n + 1), if 3/2 < g (n - i) then g (n - i) else 0 :=
    Finset.sum_congr rfl (fun i hi => by
      rw [h i (by simpa [Nat.lt_succ_iff] using hi)])
  rw [hc]
  have hr := Finset.sum_range_reflect (fun j => if 3/2 < g j then g j else 0) (n + 1)
  simpa using hr

theorem reflect_filter_card (f g : ℕ → ℚ) (n : ℕ)
    (h : ∀ i, i ≤ n → f i = g (n - i)) :
    ((Finset.range (n + 1)).filter (fun i => 3/2 < f i)).card =
      ((Finset.range (n + 1)).filter (fun i => 3/2 < g i)).card := by
  rw [Finset.card_filter, Finset.card_filter]
  have hc : (∑ i in Finset.range (n + 1), if 3/2 < f i then (1 : ℕ) else 0) =
      ∑ i in Finset.range (n + 1), if 3/2 < g (n - i) then (1 : ℕ) else 0 :=
    Finset.sum_congr rfl (fun i hi => by
      rw [h i (by simpa [Nat.lt_succ_iff] using hi)])
  rw [hc]
  have hr := Finset.sum_range_reflect (fun j => if 3/2 < g j then (1 : ℕ) else 0) (n + 1)
  simpa using hr

/-- C10: in exact rational arithmetic, `calculateInterference` is symmetric
in its two sample arguments whenever `centerDist` is a square root of the
squared center distance: `edgeDist` is symmetric, and the gap points
sampled from `s1`'s rim toward `s2`'s rim are exactly those sampled in the
opposite direction (point `i` of one direction is point `numSamples − i`
of the other). -/
theorem calculateInterference_symm (ppi : ℚ) (s1 s2 : Sample) (container : Container)
    (et : ℚ) (gridData : Option (List (List ℚ))) (cw ch D : ℚ)
    (hD2 : D ^ 2 = (s2.x - s1.x) ^ 2 + (s2.y - s1.y) ^ 2) :
    calculateInterference ppi s1 s2 container et gridData cw ch D =
      calculateInterference ppi s2 s1 container et gridData cw ch D := by
  cases gridData with
  | none => simp only [calculateInterference]
  | some rows =>
    by_cases hrows : rows = []
    · subst hrows
      simp [calculateInterference]
    by_cases hedge : D - (s1.radius + 1 * ppi) - (s2.radius + 1 * ppi) ≤ 0
    · rw [calc_touching_100 ppi s1 s2 container et rows cw ch D hrows hedge,
        calc_touching_100 ppi s2 s1 container et rows cw ch D hrows (by linarith)]
    · have hedge1 : 0 < D - (s1.radius + 1 * ppi) - (s2.radius + 1 * ppi) := by linarith
      have hsym : ∀ i, i ≤ numSamples →
          elevAt s2 s1 ppi D rows container.ambient_temperature cw ch i =
            elevAt s1 s2 ppi D rows container.ambient_temperature cw ch (numSamples - i) :=
        fun i hi => elevAt_symm s1 s2 ppi D rows container.ambient_temperature cw ch hD2 i hi
      rw [calc_char ppi s1 s2 container et rows cw ch D hrows hedge1,
        calc_char ppi s2 s1 container et rows cw ch D hrows (by linarith)]
      unfold hotFilter
      rw [reflect_filter_card
        (fun i => elevAt s2 s1 ppi D rows container.ambient_temperature cw ch i)
        (fun i => elevAt s1 s2 ppi D rows container.ambient_temperature cw ch i)
        numSamples hsym]
      rw [reflect_filter_sum
        (fun i => elevAt s2 s1 ppi D rows container.ambient_temperature cw ch i)
        (fun i => elevAt s1 s2 ppi D rows container.ambient_temperature cw ch i)
        numSamples hsym]

/-- Witness for C10: samples at (0, 0) and (3, 4), center distance exactly
5 (a 3-4-5 triangle), scored in both argument orders. -/
theorem calculateInterference_symm_witness :
    (5 : ℚ) ^ 2 = (sSymB.x - sSymA.x) ^ 2 + (sSymB.y - sSymA.y) ^ 2 ∧
    calculateInterference 1 sSymA sSymB contPlain 0 (some rows1) 10 10 5 =
      calculateInterference 1 sSymB sSymA contPlain 0 (some rows1) 10 10 5 :=
  ⟨of_decide_eq_true (by with_unfolding_all rfl),
    calculateInterference_symm 1 sSymA sSymB contPlain 0 (some rows1) 10 10 5
      (of_decide_eq_true (by with_unfolding_all rfl))⟩

theorem foldl_match_filterMap {α β : Type} (f : α → Option β) (l : List α)
    (init : List β) :
    l.foldl (fun acc a => acc ++ (f a).toList) init = init ++ l.filterMap f := by
  induction l generalizing init with
  | nil => simp
  | cons a rest ih =>
    dsimp only [List.foldl]
    cases hfa : f a
    · simp [hfa, ih, List.filterMap_cons]
    · simp [hfa, ih, List.filterMap_cons]

theorem foldl_append_flatMap {α β : Type} (g : α → List β) (l : List α)
    (init : List β) :
    l.foldl (fun acc a => acc ++ g a) init = init ++ l.flatMap g := by
  induction l generalizing init with
  | nil => simp
  | cons a rest ih =>
    dsimp only [List.foldl]
    simp [ih, List.append_assoc]

theorem filterMap_flatMap_pairs {β : Type} (m : ℕ) (l : List ℕ) (h : ℕ × ℕ → Option β) :
    (l.flatMap fun i => (List.range m).filterMap fun j => h (i, j)) =
      ((l.flatMap fun i => (List.range m).map fun j => (i, j)).filterMap h) := by
  induction l with
  | nil => simp
  | cons a rest ih =>
    simp only [List.flatMap_cons, List.filterMap_append, ih, List.filterMap_map]
    rfl

/-- C9: `getInterferenceReport` emits exactly one line per considered
ordered pair of distinct samples (`i ≠ j`, neighbors) whose score strictly
exceeds the reporting threshold 1.0 (the `qualifyingLines`, in loop
order); when no pair qualifies it emits exactly one line, reading
"Simulation not started. No thermal interference." when the elapsed time
is 0 or the grid data is null, and "No thermal interference detected."
otherwise. -/
theorem getInterferenceReport_spec (sqrtFn : ℚ → ℚ) (ppi : ℚ) (samples : List Sample)
    (container : Container) (elapsedTime : ℚ) (gridData : Option (List (List ℚ)))
    (cw ch : ℚ) :
    getInterferenceReport sqrtFn ppi samples container elapsedTime gridData cw ch =
      if qualifyingLines sqrtFn ppi samples container elapsedTime gridData cw ch = [] then
        [if elapsedTime = 0 ∨ gridData = none then
          "Simulation not started. No thermal interference."
         else "No thermal interference detected."]
      else qualifyingLines sqrtFn ppi samples container elapsedTime gridData cw ch := by
  unfold getInterferenceReport qualifyingLines
  dsimp only
  have hinner : ∀ (rep : List String) (i : ℕ),
      (List.range samples.length).foldl
        (fun rep2 j =>
          rep2 ++
            (reportEntry sqrtFn ppi samples container elapsedTime gridData cw ch (i, j)).toList)
        rep =
        rep ++ (List.range samples.length).filterMap
          (fun j => reportEntry sqrtFn ppi samples container elapsedTime gridData cw ch (i, j)) :=
    fun rep i => foldl_match_filterMap
      (fun j => reportEntry sqrtFn ppi samples container elapsedTime gridData cw ch (i, j))
      (List.range samples.length) rep
  simp only [hinner]
  rw [foldl_append_flatMap]
  rw [filterMap_flatMap_pairs samples.length (List.range samples.length)
    (reportEntry sqrtFn ppi samples container elapsedTime gridData cw ch)]
  simp only [List.nil_append, List.length_eq_zero]
  split
  · split <;> rfl
  · rfl

end InterferenceCalculator
